import Mathlib

/-!
Verification development for the ACTIONet imputation utilities
(`ACTIONet/tools/_imputation.py`).

The module operates on AnnData objects (cells × genes expression matrix
plus keyed per-cell (`obsm`), per-gene (`varm`) and cell-pair (`obsp`)
matrices).  Numeric values are modelled by exact rationals; matrices are
row-major lists of rows together with explicit row/column counts so that
degenerate shapes such as (n, 0) stay representable.  Fallible Python
code (raised `ValueError` / `KeyError`) is modelled by `Except PyError`.
External numpy / native primitives (`np.log1p`,
`_an.compute_network_diffusion`) are taken as function parameters.
-/

/-- Row-major rational matrix with explicit dimensions.  Entries are read
through `Mat.get`, which returns 0 outside the stored data (all matrices
built by this development have `r` rows of `c` entries each). -/
structure Mat where
  r : Nat
  c : Nat
  data : List (List ℚ)
deriving DecidableEq, Repr

/-- Entry `(i, j)`, defaulting to 0 outside the stored data. -/
def Mat.get (M : Mat) (i j : Nat) : ℚ := (M.data.getD i []).getD j 0

/-- Build an `r × c` matrix from an entry function. -/
def Mat.ofFn (r c : Nat) (f : Nat → Nat → ℚ) : Mat :=
  ⟨r, c, (List.range r).map (fun i => (List.range c).map (fun j => f i j))⟩

/-- numpy `.T`. -/
def Mat.transpose (M : Mat) : Mat := Mat.ofFn M.c M.r (fun i j => M.get j i)

/-- numpy `@` (dimension agreement between the factors is the caller's
responsibility, as in the spec's alignment invariant). -/
def Mat.mul (A B : Mat) : Mat :=
  Mat.ofFn A.r B.c (fun i j => ((List.range A.c).map (fun k => A.get i k * B.get k j)).sum)

/-- Elementwise map (numpy ufunc application). -/
def Mat.map (g : ℚ → ℚ) (M : Mat) : Mat := Mat.ofFn M.r M.c (fun i j => g (M.get i j))

/-- `np.sum(M, axis=0)` at column `j`. -/
def Mat.colSum (M : Mat) (j : Nat) : ℚ := ((List.range M.r).map (fun i => M.get i j)).sum

/-- `np.max(M[:, j])`.  For a matrix with at least one row this is the
true maximum of column `j` (the fold starts from the first entry of the
column, which is also in the folded list). -/
def Mat.colMax (M : Mat) (j : Nat) : ℚ :=
  ((List.range M.r).map (fun i => M.get i j)).foldl max (M.get 0 j)

/-- `M[:, js]` — numpy integer-array column selection. -/
def Mat.selectCols (M : Mat) (js : List Nat) : Mat :=
  Mat.ofFn M.r js.length (fun i k => M.get i (js.getD k 0))

/-- `np.sum(M)` — global sum of all entries. -/
def Mat.total (M : Mat) : ℚ :=
  ((List.range M.r).map (fun i => ((List.range M.c).map (fun j => M.get i j)).sum)).sum

/-- Python exceptions raised by this layer. -/
inductive PyError where
  | valueError : String → PyError
  | keyError : String → PyError
deriving DecidableEq, Repr

deriving instance DecidableEq for Except

/-- The AnnData object: cells × genes matrix `X`, cell and gene indices,
and the keyed auxiliary matrix dictionaries `obsm` (per-cell), `varm`
(per-gene) and `obsp` (cell-pair). -/
structure AnnData where
  obs_index : List String
  var_index : List String
  X : Mat
  obsm : List (String × Mat)
  varm : List (String × Mat)
  obsp : List (String × Mat)
deriving DecidableEq, Repr

/-- Dictionary lookup in a keyed matrix list (`adata.obsm[k]` etc.). -/
def lookupM (l : List (String × Mat)) (k : String) : Option Mat :=
  (l.find? (fun p => p.1 == k)).map (fun p => p.2)

/-- `pandas.Index.intersection(other)` with the default `sort=False`:
the elements of the calling index that also occur in `other`, in the
calling index's order.  (pandas additionally deduplicates; indices are
assumed unique here, per the data model.) -/
def pdIntersection (self other : List String) : List String :=
  self.filter (fun s => other.contains s)

/-- Message of the `ValueError` raised when the archetype-loading key is
missing from `adata.obsm` (quotation marks of the Python message
omitted). -/
def obsmErrMsg (k : String) : String :=
  "Did not find adata.obsm[" ++ k ++ "]."

/-- Message of the `ValueError` raised when the profile / specificity key
is missing from `adata.varm` (quotation marks omitted). -/
def varmErrMsg (k : String) : String :=
  "Did not find adata.varm[" ++ k ++ "]. Please run pp.compute_archetype_feature_specificity() first."

/-- Message of the `ValueError` raised when the `ACTIONet` graph is
missing from `adata.obsp` (quotation marks omitted). -/
def acNetErrMsg : String :=
  "Did not find adata.obsp[ACTIONet]. Please run nt.build_ACTIONet() first."

/-- Message of the `ValueError` raised by the `AnnData` constructor when
the data matrix shape disagrees with the `obs` / `var` index lengths. -/
def shapeErrMsg : String := "Data matrix has wrong shape"

/-- `AnnData(X=X, obs=pd.DataFrame(index=obsI), var=pd.DataFrame(index=varI))`:
the constructor validates that `X` is `len(obsI) × len(varI)` and raises a
`ValueError` otherwise. -/
def mkAnnDataX (X : Mat) (obsI varI : List String) : Except PyError AnnData :=
  if X.r = obsI.length ∧ X.c = varI.length then
    .ok ⟨obsI, varI, X, [], [], []⟩
  else .error (.valueError shapeErrMsg)

/-- `adata[:, names].varm[k]`: the rows of `adata.varm[k]` at the
positions of `names` in the gene index.  Subsetting an AnnData by names
absent from the index raises a `KeyError` (checked first, as the
subsetting happens before the `.varm` access); a missing `varm` key then
raises a `KeyError` naming the key. -/
def subsetVarm (a : AnnData) (names : List String) (k : String) : Except PyError Mat :=
  if names.all (fun g => a.var_index.contains g) then
    match lookupM a.varm k with
    | some M =>
        .ok (Mat.ofFn names.length M.c
          (fun i j => M.get (a.var_index.findIdx (fun s => s == names.getD i "")) j))
    | none => .error (.keyError k)
  else .error (.keyError "var names missing from index")

/-- `impute_genes_using_archetypes(adata, genes, archetypes_key, profile_key)`.

Embeds the source line by line: the two key checks, the intersection of
`genes` with `adata.obs.index` (sic — the source intersects with the
cell index, line 42), the read of
`adata[:, genes].varm[archetypes_key + "_profile"]` (sic — the source
reads that key, not `profile_key`, line 43), `H = obsm[archetypes_key].T`,
and the construction `AnnData(X=(Z @ H).T, obs=obs_index, var=genes)`. -/
def impute_genes_using_archetypes (adata : AnnData) (genes : List String)
    (archetypes_key profile_key : String) : Except PyError AnnData :=
  if (lookupM adata.obsm archetypes_key).isSome = false then
    .error (.valueError (obsmErrMsg archetypes_key))
  else if (lookupM adata.varm profile_key).isSome = false then
    .error (.valueError (varmErrMsg profile_key))
  else
    match subsetVarm adata (pdIntersection adata.obs_index genes)
        (archetypes_key ++ "_profile") with
    | .error e => .error e
    | .ok Z =>
      mkAnnDataX
        ((Z.mul (((lookupM adata.obsm archetypes_key).getD ⟨0, 0, []⟩).transpose)).transpose)
        adata.obs_index (pdIntersection adata.obs_index genes)

/-- `impute_specific_genes_using_archetypes(adata, genes, archetypes_key,
significance_key)`.  `log1p` is the external numpy primitive `np.log1p`,
passed as a parameter.  As in the source: intersection with
`adata.obs.index` (line 82), `Z = np.log1p(adata[:, genes].varm[significance_key])`,
`H = obsm[archetypes_key].T`, result `(Z @ H).T`. -/
def impute_specific_genes_using_archetypes (log1p : ℚ → ℚ) (adata : AnnData)
    (genes : List String) (archetypes_key significance_key : String) :
    Except PyError AnnData :=
  if (lookupM adata.obsm archetypes_key).isSome = false then
    .error (.valueError (obsmErrMsg archetypes_key))
  else if (lookupM adata.varm significance_key).isSome = false then
    .error (.valueError (varmErrMsg significance_key))
  else
    match subsetVarm adata (pdIntersection adata.obs_index genes) significance_key with
    | .error e => .error e
    | .ok Z0 =>
      mkAnnDataX
        (((Mat.map log1p Z0).mul
            (((lookupM adata.obsm archetypes_key).getD ⟨0, 0, []⟩).transpose)).transpose)
        adata.obs_index (pdIntersection adata.obs_index genes)

/-- `genes = adata.var.index.intersection(genes)` (source line 121 of the
diffusion path — this one intersects with the gene index). -/
def acGenesI (a : AnnData) (genes : List String) : List String :=
  pdIntersection a.var_index genes

/-- Positions selected by `mask = adata.var.index.isin(genes)` after the
rebinding of `genes` to the intersection. -/
def acSelIdx (a : AnnData) (genes : List String) : List Nat :=
  (List.range a.var_index.length).filter
    (fun j => (acGenesI a genes).contains (a.var_index.getD j ""))

/-- `U = adata.X[:, mask].copy()`. -/
def acU0 (a : AnnData) (genes : List String) : Mat :=
  (a.X).selectCols (acSelIdx a genes)

/-- `U[U < 0] = 0`. -/
def acClamped (a : AnnData) (genes : List String) : Mat :=
  Mat.map (fun x => if x < 0 then 0 else x) (acU0 a genes)

/-- `cs = np.array(np.sum(U, axis=0)).flatten()` at position `k`. -/
def acCs (a : AnnData) (genes : List String) (k : Nat) : ℚ :=
  (acClamped a genes).colSum k

/-- `U = U / cs` (column-wise broadcast divide).  Rational division by
zero yields 0 where numpy would produce NaN/Inf; every column in which
that happens is dropped immediately afterwards (`U[:, cs > 0]`), and the
occurrence of a zero divisor is tracked through `acCs` in the theorems. -/
def acUnorm (a : AnnData) (genes : List String) : Mat :=
  Mat.ofFn (acClamped a genes).r (acClamped a genes).c
    (fun i k => (acClamped a genes).get i k / acCs a genes k)

/-- The column positions with `cs > 0`. -/
def acKeep (a : AnnData) (genes : List String) : List Nat :=
  (List.range (acClamped a genes).c).filter (fun k => decide (0 < acCs a genes k))

/-- `U = U[:, cs > 0]`. -/
def acU1 (a : AnnData) (genes : List String) : Mat :=
  (acUnorm a genes).selectCols (acKeep a genes)

/-- `gg = genes[cs > 0]` (boolean selection of the intersected gene list;
valid when the gene index is duplicate-free, so that `len(cs) == len(genes)`
— numpy raises otherwise). -/
def acGg (a : AnnData) (genes : List String) : List String :=
  (acKeep a genes).map (fun k => (acGenesI a genes).getD k "")

/-- The `else` branch (no requested gene present): `U = adata.X[:, mask].copy()`
then `U = U / np.sum(U)` — a global-sum normalization of the (cells × 0)
selection. -/
def acUelse (a : AnnData) (genes : List String) : Mat :=
  Mat.map (fun x => x / (acU0 a genes).total) (acU0 a genes)

/-- `True` iff the source takes the `else` (global-sum) branch, i.e.
`np.sum(mask) > 0` fails. -/
def acUsedGlobalBranch (a : AnnData) (genes : List String) : Bool :=
  (acSelIdx a genes).isEmpty

/-- The working matrix handed to the diffusion primitive. -/
def acUfinal (a : AnnData) (genes : List String) : Mat :=
  if 0 < (acSelIdx a genes).length then acU1 a genes else acUelse a genes

/-- The gene labels surviving the normalization step (`gg` in the source). -/
def acGgFinal (a : AnnData) (genes : List String) : List String :=
  if 0 < (acSelIdx a genes).length then acGg a genes else acGenesI a genes

/-- `G = adata.obsp["ACTIONet"]` (read after the presence check). -/
def acGraph (a : AnnData) : Mat := (lookupM a.obsp "ACTIONet").getD ⟨0, 0, []⟩

/-- `np.nan_to_num(imputed, copy=False, nan=0.0)`: the exact-rational
model has no NaN, so the primitive's output is already finite and the
replacement is the identity. -/
def nanToNum (M : Mat) : Mat := M

/-- `imputed = _an.compute_network_diffusion(G, csc_matrix(U), n_threads,
alpha, n_iters)` followed by the NaN replacement; `d` is the opaque
external primitive. -/
def acImputed (d : Mat → Mat → Int → ℚ → Int → Mat) (a : AnnData)
    (genes : List String) (n_threads : Int) (alpha : ℚ) (n_iters : Int) : Mat :=
  nanToNum (d (acGraph a) (acUfinal a genes) n_threads alpha n_iters)

/-- The rescaling loop (source lines 141–157): `rescaled = np.zeros(imputed.shape)`;
for each column, `x_Q = np.max(U[:, i])`, `y_Q = np.max(imputed[:, i])`;
if `y_Q == 0` the column stays zero, otherwise the column is scaled by
`x_Q / y_Q` and clamped from above at `x_Q`. -/
def rescaleCols (U Y : Mat) : Mat :=
  Mat.ofFn Y.r Y.c (fun i j =>
    if Y.colMax j = 0 then 0
    else min (Y.get i j * U.colMax j / Y.colMax j) (U.colMax j))

/-- `impute_genes_using_ACTIONet(adata, genes, alpha, n_threads, n_iters)`
with the external diffusion primitive `d` as an explicit parameter.
Note the source constructs the result with `var=pd.DataFrame(index=genes)`
— the full intersected list, not the surviving `gg` (line 160). -/
def impute_genes_using_ACTIONet (d : Mat → Mat → Int → ℚ → Int → Mat)
    (adata : AnnData) (genes : List String) (alpha : ℚ)
    (n_threads n_iters : Int) : Except PyError AnnData :=
  if (lookupM adata.obsp "ACTIONet").isSome = false then
    .error (.valueError acNetErrMsg)
  else
    mkAnnDataX
      (rescaleCols (acUfinal adata genes)
        (acImputed d adata genes n_threads alpha n_iters))
      adata.obs_index (acGenesI adata genes)

/-- An AnnData with one `varm` slot set (used to phrase the
specificity-path refinement: substituting a matrix for the per-gene
matrix the profile path consumes). -/
def setVarm (a : AnnData) (k : String) (M : Mat) : AnnData :=
  { a with varm := (k, M) :: a.varm }

/-! ## Store model

To state the frame property (the utilities never mutate the caller's
AnnData), numpy arrays are given identities in an explicit store and the
functions are replayed as store transformers: every operation the source
performs in place (`U[U < 0] = 0`, `np.nan_to_num(..., copy=False)`,
`rescaled[:, i] = y`) becomes a write to the array it targets, and every
operation that allocates (`.copy()`, `/`, `@`, `np.log1p`, `np.zeros`,
the diffusion call) becomes a fresh allocation. -/

/-- A heap of numpy arrays: fresh-id counter plus id ↦ matrix entries
(later entries shadowed by earlier ones). -/
structure Store where
  next : Nat
  mem : List (Nat × Mat)
deriving DecidableEq, Repr

/-- Read the array with identity `id` (the zero-size matrix if absent). -/
def Store.get (s : Store) (i : Nat) : Mat :=
  ((s.mem.find? (fun p => p.1 == i)).map (fun p => p.2)).getD ⟨0, 0, []⟩

/-- Allocate a fresh array holding `M`; returns its identity. -/
def Store.alloc (s : Store) (M : Mat) : Nat × Store :=
  (s.next, ⟨s.next + 1, (s.next, M) :: s.mem⟩)

/-- Overwrite the array with identity `i` in place. -/
def Store.write (s : Store) (i : Nat) (M : Mat) : Store :=
  ⟨s.next, (i, M) :: s.mem⟩

/-- An AnnData whose arrays live in the store: the expression matrix and
every keyed `obsm` / `varm` / `obsp` entry is an array identity. -/
structure AnnDataRef where
  obs_index : List String
  var_index : List String
  Xid : Nat
  obsm : List (String × Nat)
  varm : List (String × Nat)
  obsp : List (String × Nat)
deriving DecidableEq, Repr

/-- All array identities owned by the caller's AnnData. -/
def AnnDataRef.ids (a : AnnDataRef) : List Nat :=
  a.Xid :: ((a.obsm ++ a.varm ++ a.obsp).map (fun p => p.2))

/-- Materialize the AnnData value an `AnnDataRef` denotes in a store. -/
def derefAnnData (s : Store) (a : AnnDataRef) : AnnData :=
  ⟨a.obs_index, a.var_index, s.get a.Xid,
   a.obsm.map (fun p => (p.1, s.get p.2)),
   a.varm.map (fun p => (p.1, s.get p.2)),
   a.obsp.map (fun p => (p.1, s.get p.2))⟩

/-- Store-level replay of `impute_genes_using_archetypes`.  The source
performs no in-place array operation in this function — `@`, `.T` and the
AnnData constructor all allocate fresh arrays and the inputs are only
read — so the store is returned untouched. -/
def impute_genes_using_archetypes_ref (a : AnnDataRef) (genes : List String)
    (archetypes_key profile_key : String) (s : Store) :
    Except PyError AnnData × Store :=
  (impute_genes_using_archetypes (derefAnnData s a) genes archetypes_key profile_key, s)

/-- Store-level replay of `impute_specific_genes_using_archetypes`; as
above, `np.log1p`, `@` and `.T` allocate fresh arrays and nothing is
written in place, so the store is returned untouched. -/
def impute_specific_genes_using_archetypes_ref (log1p : ℚ → ℚ) (a : AnnDataRef)
    (genes : List String) (archetypes_key significance_key : String) (s : Store) :
    Except PyError AnnData × Store :=
  (impute_specific_genes_using_archetypes log1p (derefAnnData s a) genes
    archetypes_key significance_key, s)

/-- Store-level replay of `impute_genes_using_ACTIONet`.  `U` starts as a
fresh `.copy()` of the selected columns; the clamp `U[U < 0] = 0` writes
to that copy (only in the mask-nonempty branch, as in the source); the
rebindings `U = U / cs`, `U = U[:, cs > 0]` / `U = U / np.sum(U)`
allocate; the diffusion result is a fresh array that
`np.nan_to_num(copy=False)` overwrites in place; `rescaled` is a fresh
`np.zeros` whose columns are then written (collapsed to one write). -/
def impute_genes_using_ACTIONet_ref (d : Mat → Mat → Int → ℚ → Int → Mat)
    (a : AnnDataRef) (genes : List String) (alpha : ℚ)
    (n_threads n_iters : Int) (s : Store) : Except PyError AnnData × Store :=
  let adata := derefAnnData s a
  if (lookupM adata.obsp "ACTIONet").isSome = false then
    (.error (.valueError acNetErrMsg), s)
  else
    let al1 := s.alloc (acU0 adata genes)
    let s2 := if 0 < (acSelIdx adata genes).length then
                al1.2.write al1.1 (Mat.map (fun x => if x < 0 then 0 else x) (al1.2.get al1.1))
              else al1.2
    let al2 := s2.alloc (acUfinal adata genes)
    let s3 := al2.2
    let al3 := s3.alloc (d (acGraph adata) (s3.get al2.1) n_threads alpha n_iters)
    let s4 := al3.2
    let s5 := s4.write al3.1 (nanToNum (s4.get al3.1))
    let al4 := s5.alloc (Mat.ofFn (s5.get al3.1).r (s5.get al3.1).c (fun _ _ => 0))
    let s6 := al4.2
    let s7 := s6.write al4.1 (rescaleCols (s6.get al2.1) (s6.get al3.1))
    (mkAnnDataX (s7.get al4.1) adata.obs_index (acGenesI adata genes), s7)

/-! ## Concrete instances used by the per-claim evaluations -/

/-- C1 input: one cell and one gene, both named `g1` (so the source's
obs-index intersection keeps the gene); the checked profile key
`unified_feature_profile` is present in `varm`, but the key the source
reads, `H_unified_profile`, is not. -/
def c1Adata : AnnData :=
  ⟨["g1"], ["g1"], ⟨1, 1, [[0]]⟩, [("H_unified", ⟨1, 1, [[1]]⟩)],
   [("unified_feature_profile", ⟨1, 1, [[5]]⟩)], []⟩

/-- C2 input: cell index `[c1]`, gene index `[g1]`; every key the source
checks or reads is present, so the call succeeds. -/
def c2Adata : AnnData :=
  ⟨["c1"], ["g1"], ⟨1, 1, [[0]]⟩, [("H_unified", ⟨1, 1, [[1]]⟩)],
   [("unified_feature_profile", ⟨1, 1, [[5]]⟩), ("H_unified_profile", ⟨1, 1, [[5]]⟩)], []⟩

/-- The value `impute_genes_using_archetypes` returns on `c2Adata`:
an empty gene set. -/
def c2Out : AnnData := ⟨["c1"], [], ⟨1, 0, [[]]⟩, [], [], []⟩

/-- C3 input: the requested gene `g1` is present but its whole expression
column is zero. -/
def c3Adata : AnnData :=
  ⟨["c1"], ["g1"], ⟨1, 1, [[0]]⟩, [], [], [("ACTIONet", ⟨1, 1, [[1]]⟩)]⟩

/-- A diffusion double obeying the documented shape contract
(cells × signal-columns output). -/
def c3Diff : Mat → Mat → Int → ℚ → Int → Mat :=
  fun G U _ _ _ => Mat.ofFn G.r U.c (fun _ _ => 0)

/-- C4/C5 input: two cells, one gene with positive expression. -/
def c4Adata : AnnData :=
  ⟨["c1", "c2"], ["g1"], ⟨2, 1, [[1], [2]]⟩, [], [],
   [("ACTIONet", ⟨2, 2, [[0, 1], [1, 0]]⟩)]⟩

/-- A diffusion double returning the signal unchanged. -/
def c4Diff : Mat → Mat → Int → ℚ → Int → Mat := fun _ U _ _ _ => U

/-- The value `impute_genes_using_ACTIONet` returns on `c4Adata` with
`c4Diff`. -/
def c4Out : AnnData :=
  ⟨["c1", "c2"], ["g1"], ⟨2, 1, [[1/3], [2/3]]⟩, [], [], []⟩

/-- C5 input: same shape as `c4Adata`. -/
def c5Adata : AnnData :=
  ⟨["c1", "c2"], ["g1"], ⟨2, 1, [[1], [2]]⟩, [], [],
   [("ACTIONet", ⟨2, 2, [[0, 1], [1, 0]]⟩)]⟩

/-- A diffusion double for C5. -/
def c5Diff : Mat → Mat → Int → ℚ → Int → Mat := fun _ U _ _ _ => U

/-- The value `impute_genes_using_ACTIONet` returns on `c5Adata` with
`c5Diff`. -/
def c5Out : AnnData :=
  ⟨["c1", "c2"], ["g1"], ⟨2, 1, [[1/3], [2/3]]⟩, [], [], []⟩

/-- C6 input: one cell and one gene both named `g1` (the obs-index
intersection then keeps the gene), with loadings and a specificity
matrix. -/
def c6Adata : AnnData :=
  ⟨["g1"], ["g1"], ⟨1, 1, [[0]]⟩, [("H_unified", ⟨1, 1, [[2]]⟩)],
   [("unified_feature_specificity", ⟨1, 1, [[3]]⟩)], []⟩

/-- The specificity matrix stored in `c6Adata`. -/
def c6S : Mat := ⟨1, 1, [[3]]⟩

/-- C7 input: an AnnData with no keyed matrices at all. -/
def c7AdataA : AnnData := ⟨["c1"], ["g1"], ⟨1, 1, [[0]]⟩, [], [], []⟩

/-- C7 input: loadings present, but no `varm` keys. -/
def c7AdataB : AnnData :=
  ⟨["c1"], ["g1"], ⟨1, 1, [[0]]⟩, [("H_unified", ⟨1, 1, [[1]]⟩)], [], []⟩

/-- C8 input: two cells, one gene, with one negative raw value. -/
def c8Adata : AnnData :=
  ⟨["c1", "c2"], ["g1"], ⟨2, 1, [[-1], [2]]⟩, [], [],
   [("ACTIONet", ⟨2, 2, [[0, 1], [1, 0]]⟩)]⟩

/-- C9 store: one caller-owned array with identity 0. -/
def c9Store : Store := ⟨1, [(0, ⟨1, 1, [[7]]⟩)]⟩

/-- C9 AnnData reference: its expression matrix is array 0. -/
def c9Ref : AnnDataRef := ⟨["c1"], ["g1"], 0, [], [], []⟩

/-- C10 input without the `ACTIONet` graph key. -/
def c10AdataA : AnnData := ⟨["c1"], ["g1"], ⟨1, 1, [[1]]⟩, [], [], []⟩

/-- C10 input with the `ACTIONet` graph key. -/
def c10AdataB : AnnData :=
  ⟨["c1"], ["g1"], ⟨1, 1, [[1]]⟩, [], [], [("ACTIONet", ⟨1, 1, [[1]]⟩)]⟩

/-- A diffusion double that ignores its numeric parameters. -/
def c10Diff : Mat → Mat → Int → ℚ → Int → Mat := fun _ U _ _ _ => U

/-! ## Helper lemmas -/

theorem Mat.get_ofFn_ite (r c : Nat) (f : Nat → Nat → ℚ) (i j : Nat) :
    (Mat.ofFn r c f).get i j = if i < r ∧ j < c then f i j else 0 := by
  unfold Mat.ofFn Mat.get
  by_cases hi : i < r
  · have h1 : ((List.range r).map (fun i => (List.range c).map (fun j => f i j))).getD i []
        = (List.range c).map (fun j => f i j) := by
      rw [List.getD_eq_getElem?_getD, List.getElem?_map, List.getElem?_range hi]
      rfl
    rw [h1]
    by_cases hj : j < c
    · have h2 : ((List.range c).map (fun j => f i j)).getD j 0 = f i j := by
        rw [List.getD_eq_getElem?_getD, List.getElem?_map, List.getElem?_range hj]
        rfl
      rw [h2, if_pos ⟨hi, hj⟩]
    · have h2 : ((List.range c).map (fun j => f i j)).getD j 0 = 0 := by
        rw [List.getD_eq_getElem?_getD,
          List.getElem?_eq_none (by simpa using Nat.le_of_not_lt hj)]
        rfl
      rw [h2, if_neg (fun h => hj h.2)]
  · have h1 : ((List.range r).map (fun i => (List.range c).map (fun j => f i j))).getD i []
        = [] := by
      rw [List.getD_eq_getElem?_getD,
        List.getElem?_eq_none (by simpa using Nat.le_of_not_lt hi)]
      rfl
    rw [h1, if_neg (fun h => hi h.1)]
    rfl

theorem Mat.get_ofFn (r c : Nat) (f : Nat → Nat → ℚ) (i j : Nat)
    (hi : i < r) (hj : j < c) : (Mat.ofFn r c f).get i j = f i j := by
  rw [Mat.get_ofFn_ite, if_pos ⟨hi, hj⟩]

theorem Mat.ofFn_congr (r c : Nat) (f g : Nat → Nat → ℚ)
    (h : ∀ i < r, ∀ j < c, f i j = g i j) : Mat.ofFn r c f = Mat.ofFn r c g := by
  unfold Mat.ofFn
  refine congrArg (Mat.mk r c) ?_
  refine List.map_congr_left (fun i hi => ?_)
  refine List.map_congr_left (fun j hj => ?_)
  exact h i (List.mem_range.mp hi) j (List.mem_range.mp hj)

theorem mkAnnDataX_ok {X : Mat} {o v : List String} {out : AnnData}
    (h : mkAnnDataX X o v = .ok out) :
    out = ⟨o, v, X, [], [], []⟩ ∧ X.r = o.length ∧ X.c = v.length := by
  unfold mkAnnDataX at h
  split at h
  · rename_i hc
    cases h
    exact ⟨rfl, hc.1, hc.2⟩
  · exact Except.noConfusion h

theorem list_filter_full {α : Type} (l : List α) (p : α → Bool)
    (h : (l.filter p).length = l.length) : l.filter p = l := by
  induction l with
  | nil => rfl
  | cons a t ih =>
      by_cases hp : p a
      · rw [List.filter_cons_of_pos hp] at h ⊢
        simp only [List.length_cons, Nat.add_right_cancel_iff] at h
        rw [ih h]
      · exfalso
        rw [List.filter_cons_of_neg hp] at h
        have := List.length_filter_le p t
        simp only [List.length_cons] at h
        omega

theorem length_filter_range_getD (l : List String) (p : String → Bool) (d : String) :
    ((List.range l.length).filter (fun j => p (l.getD j d))).length
      = (l.filter p).length := by
  induction l using List.reverseRecOn with
  | nil => rfl
  | append_singleton t a ih =>
      rw [List.filter_append, List.length_append, List.length_append,
        List.length_singleton, List.range_succ, List.filter_append, List.length_append]
      have h1 : (List.range t.length).filter (fun j => p ((t ++ [a]).getD j d))
          = (List.range t.length).filter (fun j => p (t.getD j d)) := by
        refine List.filter_congr (fun j hj => ?_)
        rw [List.getD_append t [a] d j (List.mem_range.mp hj)]
      have h2 : (t ++ [a]).getD t.length d = a := by
        rw [List.getD_eq_getElem?_getD, List.getElem?_append_right (Nat.le_refl _)]
        simp
      rw [h1, ih]
      congr 1
      cases hpa : p a
      · simp [List.filter, h2, hpa]
      · simp [List.filter, h2, hpa]

theorem map_getD_range {α : Type} (l : List α) (d : α) :
    (List.range l.length).map (fun k => l.getD k d) = l := by
  refine List.ext_getElem (by simp) (fun i h1 h2 => ?_)
  simp only [List.getElem_map, List.getElem_range]
  exact List.getD_eq_getElem l d h2

theorem le_foldl_max (l : List ℚ) (a : ℚ) : a ≤ l.foldl max a := by
  induction l generalizing a with
  | nil => exact le_refl a
  | cons x xs ih => exact le_trans (le_max_left a x) (ih (max a x))

/-! ## Claim theorems -/

/-- Claim C1 (refuted evaluation): the source checks that `profile_key`
is present but then reads `varm[archetypes_key + "_profile"]`.  On
`c1Adata` the caller-supplied profile key is present, yet the call raises
`KeyError("H_unified_profile")` instead of returning the product the
claim specifies. -/
theorem c1_profile_key_ignored :
    (lookupM c1Adata.varm "unified_feature_profile").isSome = true ∧
    impute_genes_using_archetypes c1Adata ["g1"] "H_unified" "unified_feature_profile"
      = .error (.keyError "H_unified_profile") := by
  constructor
  · rfl
  · rfl

/-- Claim C2 (refuted evaluation): on `c2Adata` the requested gene `g1`
is present in the gene index (the intersection the claim specifies is
`["g1"]`), but the archetype-profile path intersects with the cell index
(`adata.obs.index`, source line 42) and returns an output whose gene set
is empty. -/
theorem c2_intersection_uses_obs_index :
    impute_genes_using_archetypes c2Adata ["g1"] "H_unified" "unified_feature_profile"
      = .ok c2Out ∧
    c2Out.var_index = [] ∧
    pdIntersection c2Adata.var_index ["g1"] = ["g1"] ∧
    ([] : List String) ≠ ["g1"] := by
  refine ⟨rfl, rfl, rfl, ?_⟩
  intro h
  exact List.noConfusion h

/-- Claim C3 counterexample: on `c3Adata` the requested gene `g1` is
present (`mask` selects one column) and its column sum is zero; contrary
to the claim, the source takes the per-column branch (not the global-sum
branch), divides the column by its zero sum, and the call ends in a
`ValueError` from the output constructor rather than a defined output. -/
theorem c3_counterexample :
    acUsedGlobalBranch c3Adata ["g1"] = false ∧
    0 < (acClamped c3Adata ["g1"]).c ∧
    acCs c3Adata ["g1"] 0 = 0 ∧
    impute_genes_using_ACTIONet c3Diff c3Adata ["g1"] (85/100) 0 5
      = .error (.valueError shapeErrMsg) := by
  have hcs : acCs c3Adata ["g1"] 0 = 0 := by
    simp [acCs, acClamped, acU0, Mat.colSum, Mat.map, Mat.selectCols, Mat.ofFn, Mat.get,
      acSelIdx, acGenesI, c3Adata, pdIntersection, List.range_succ]
  have hkeep : acKeep c3Adata ["g1"] = [] := by
    have h1 : (acClamped c3Adata ["g1"]).c = 1 := rfl
    rw [acKeep, h1]
    simp [List.range_succ, List.filter, hcs]
  have hU1c : (acUfinal c3Adata ["g1"]).c = 0 := by
    simp [acUfinal, acU1, Mat.selectCols, Mat.ofFn, hkeep]
    rfl
  have himpc : (acImputed c3Diff c3Adata ["g1"] 0 (85/100) 5).c = 0 := by
    simp [acImputed, nanToNum, c3Diff, Mat.ofFn, hU1c]
  have hgi : acGenesI c3Adata ["g1"] = ["g1"] := rfl
  have hkey : (lookupM c3Adata.obsp "ACTIONet").isSome = true := rfl
  refine ⟨rfl, Nat.one_pos, hcs, ?_⟩
  simp [impute_genes_using_ACTIONet, mkAnnDataX, rescaleCols, Mat.ofFn, himpc, hgi, hkey]

/-- Claim C3 (amended): when at least one requested gene is present in
the gene index but every selected gene's column sum is zero, the source
does **not** take the global-sum branch (that branch is reserved for the
case where no requested gene is present at all): it takes the per-column
branch, dividing each of the (at least one) selected columns by its zero
sum, drops every column from the working set, and — because the output
is labeled with the full intersected gene list while the value matrix
has zero columns — the call fails with the output constructor's shape
error instead of returning a defined output. -/
theorem c3_amended (d : Mat → Mat → Int → ℚ → Int → Mat) (a : AnnData)
    (genes : List String) (alpha : ℚ) (t n : Int)
    (hkey : (lookupM a.obsp "ACTIONet").isSome = true)
    (hne : acGenesI a genes ≠ [])
    (hzero : ∀ k < (acClamped a genes).c, acCs a genes k = 0)
    (hd : (d (acGraph a) (acUfinal a genes) t alpha n).c = (acUfinal a genes).c) :
    acUsedGlobalBranch a genes = false ∧
    impute_genes_using_ACTIONet d a genes alpha t n
      = .error (.valueError shapeErrMsg) := by
  obtain ⟨g, hg⟩ := List.exists_mem_of_ne_nil _ hne
  have hgv : g ∈ a.var_index := (List.mem_filter.mp hg).1
  obtain ⟨j, hj, hjg⟩ := List.mem_iff_getElem.mp hgv
  have hjsel : j ∈ acSelIdx a genes := by
    rw [acSelIdx, List.mem_filter]
    refine ⟨List.mem_range.mpr hj, ?_⟩
    rw [List.getD_eq_getElem a.var_index "" hj, hjg]
    exact List.elem_iff.mpr hg
  have hsel : 0 < (acSelIdx a genes).length :=
    List.length_pos.mpr (List.ne_nil_of_mem hjsel)
  have hbranch : acUsedGlobalBranch a genes = false := by
    rw [acUsedGlobalBranch, List.isEmpty_eq_false]
    exact List.ne_nil_of_mem hjsel
  have hkeep : acKeep a genes = [] := by
    rw [acKeep, List.filter_eq_nil_iff]
    intro k hk
    simp [hzero k (List.mem_range.mp hk)]
  have hUc : (acUfinal a genes).c = 0 := by
    rw [acUfinal, if_pos hsel, acU1, Mat.selectCols, hkeep]
    rfl
  have hXc : (rescaleCols (acUfinal a genes) (acImputed d a genes t alpha n)).c = 0 := by
    rw [rescaleCols, Mat.ofFn, acImputed, nanToNum, hd, hUc]
  have hglen : (acGenesI a genes).length ≠ 0 :=
    fun h => hne (List.eq_nil_of_length_eq_zero h)
  refine ⟨hbranch, ?_⟩
  rw [impute_genes_using_ACTIONet, if_neg (by rw [hkey]; exact fun h => Bool.noConfusion h),
    mkAnnDataX, if_neg]
  intro h
  rw [hXc] at h
  exact hglen h.2.symm

/-- Witness for `c3_amended` at the concrete input `c3Adata` / `c3Diff`. -/
theorem c3_amended_witness :
    (lookupM c3Adata.obsp "ACTIONet").isSome = true ∧
    acGenesI c3Adata ["g1"] ≠ [] ∧
    (acUsedGlobalBranch c3Adata ["g1"] = false ∧
      impute_genes_using_ACTIONet c3Diff c3Adata ["g1"] (85/100) 0 5
        = .error (.valueError shapeErrMsg)) := by
  have hcs : ∀ k < (acClamped c3Adata ["g1"]).c, acCs c3Adata ["g1"] k = 0 := by
    intro k hk
    have hk0 : k = 0 := Nat.lt_one_iff.mp hk
    rw [hk0]
    simp [acCs, acClamped, acU0, Mat.colSum, Mat.map, Mat.selectCols, Mat.ofFn, Mat.get,
      acSelIdx, acGenesI, c3Adata, pdIntersection, List.range_succ]
  refine ⟨rfl, ?_, c3_amended c3Diff c3Adata ["g1"] (85/100) 0 5 rfl ?_ hcs rfl⟩
  · intro h
    exact List.noConfusion h
  · intro h
    exact List.noConfusion h

/-- Claim C4: every successful `impute_genes_using_ACTIONet` call (with a
diffusion primitive obeying its documented output-width contract) returns
an AnnData whose rows are the input's cell index and whose columns are
labeled exactly by the gene list surviving the normalization step, whose
length matches the value-matrix width.  (Success forces the surviving
list to coincide with the intersected list the source labels with.) -/
theorem c4_output_labels (d : Mat → Mat → Int → ℚ → Int → Mat) (a : AnnData)
    (genes : List String) (alpha : ℚ) (t n : Int) (out : AnnData)
    (hd : (d (acGraph a) (acUfinal a genes) t alpha n).c = (acUfinal a genes).c)
    (hok : impute_genes_using_ACTIONet d a genes alpha t n = .ok out) :
    out.obs_index = a.obs_index ∧
    out.var_index = acGgFinal a genes ∧
    out.X.c = (acGgFinal a genes).length := by
  rw [impute_genes_using_ACTIONet] at hok
  split at hok
  · exact Except.noConfusion hok
  obtain ⟨hout, hXr, hc⟩ := mkAnnDataX_ok hok
  have hXc : (rescaleCols (acUfinal a genes) (acImputed d a genes t alpha n)).c
      = (acUfinal a genes).c := hd
  have hlen : (acGenesI a genes).length = (acUfinal a genes).c := by
    rw [← hc]
    exact hXc
  by_cases hsel : 0 < (acSelIdx a genes).length
  · have hUc : (acUfinal a genes).c = (acKeep a genes).length := by
      rw [acUfinal, if_pos hsel]
      rfl
    have hclampc : (acClamped a genes).c = (acSelIdx a genes).length := rfl
    have hsel_eq : acSelIdx a genes
        = (List.range a.var_index.length).filter
            (fun j => genes.contains (a.var_index.getD j "")) := by
      rw [acSelIdx]
      refine List.filter_congr (fun j hj => ?_)
      have hjlt := List.mem_range.mp hj
      cases hm : genes.contains (a.var_index.getD j "") with
      | true =>
          refine List.elem_iff.mpr ?_
          rw [acGenesI, pdIntersection, List.mem_filter]
          constructor
          · rw [List.getD_eq_getElem a.var_index "" hjlt]
            exact List.getElem_mem hjlt
          · exact hm
      | false =>
          refine Bool.eq_false_iff.mpr ?_
          intro hcont
          have hmem := List.elem_iff.mp hcont
          have h2 := (List.mem_filter.mp hmem).2
          rw [hm] at h2
          exact Bool.noConfusion h2
    have hsellen : (acSelIdx a genes).length = (acGenesI a genes).length := by
      rw [hsel_eq]
      exact length_filter_range_getD a.var_index (fun s => genes.contains s) ""
    have h1 : (acGenesI a genes).length = (acKeep a genes).length := by
      rw [hlen, hUc]
    have hkeeplen : (acKeep a genes).length = (acSelIdx a genes).length :=
      h1.symm.trans hsellen.symm
    have hkeq : acKeep a genes
        = (List.range (acSelIdx a genes).length).filter
            (fun k => decide (0 < acCs a genes k)) := by
      rw [acKeep, hclampc]
    have hkeep2 : acKeep a genes = List.range (acSelIdx a genes).length := by
      rw [hkeq]
      refine list_filter_full _ _ ?_
      rw [← hkeq, hkeeplen, List.length_range]
    have hgg : acGg a genes = acGenesI a genes := by
      rw [acGg, hkeep2, hsellen, map_getD_range]
    have hggf : acGgFinal a genes = acGenesI a genes := by
      rw [acGgFinal, if_pos hsel, hgg]
    refine ⟨by rw [hout], by rw [hout, hggf], ?_⟩
    rw [hout, hggf]
    exact hc
  · have hs0 : (acSelIdx a genes).length = 0 := Nat.eq_zero_of_not_pos hsel
    have hUc : (acUfinal a genes).c = 0 := by
      rw [acUfinal, if_neg hsel]
      exact hs0
    have hglen : (acGenesI a genes).length = 0 := by
      rw [hlen, hUc]
    have hggf : acGgFinal a genes = acGenesI a genes := by
      rw [acGgFinal, if_neg hsel]
    refine ⟨by rw [hout], by rw [hout, hggf], ?_⟩
    rw [hout, hggf]
    exact hc

/-- Witness for `c4_output_labels`: a successful concrete run. -/
theorem c4_output_labels_witness :
    impute_genes_using_ACTIONet c4Diff c4Adata ["g1"] (85/100) 0 5 = .ok c4Out ∧
    (c4Out.obs_index = c4Adata.obs_index ∧
     c4Out.var_index = acGgFinal c4Adata ["g1"] ∧
     c4Out.X.c = (acGgFinal c4Adata ["g1"]).length) := by
  have hsel : acSelIdx c4Adata ["g1"] = [0] := by
    simp [acSelIdx, acGenesI, c4Adata, List.range_succ, pdIntersection]
  have h0 : acU0 c4Adata ["g1"] = ⟨2, 1, [[1], [2]]⟩ := by
    rw [acU0, hsel]
    norm_num [Mat.selectCols, Mat.ofFn, Mat.get, List.range_succ, c4Adata, Mat.mk.injEq]
  have h1 : acClamped c4Adata ["g1"] = ⟨2, 1, [[1], [2]]⟩ := by
    rw [acClamped, h0]
    norm_num [Mat.map, Mat.ofFn, Mat.get, List.range_succ, Mat.mk.injEq]
  have h2 : acCs c4Adata ["g1"] 0 = 3 := by
    rw [acCs, h1]
    norm_num [Mat.colSum, Mat.get, List.range_succ]
  have hUn : acUnorm c4Adata ["g1"] = ⟨2, 1, [[1/3], [2/3]]⟩ := by
    rw [acUnorm, h1]
    norm_num [Mat.ofFn, Mat.get, List.range_succ, h2, Mat.mk.injEq]
  have hkeep : acKeep c4Adata ["g1"] = [0] := by
    rw [acKeep, h1]
    simp [List.range_succ, List.filter, h2]
  have hU : acUfinal c4Adata ["g1"] = ⟨2, 1, [[1/3], [2/3]]⟩ := by
    rw [acUfinal, if_pos (by rw [hsel]; exact Nat.one_pos), acU1, hkeep, hUn]
    norm_num [Mat.selectCols, Mat.ofFn, Mat.get, List.range_succ, Mat.mk.injEq]
  have hY : acImputed c4Diff c4Adata ["g1"] 0 (85/100) 5 = ⟨2, 1, [[1/3], [2/3]]⟩ := hU
  have hres : rescaleCols (⟨2, 1, [[1/3], [2/3]]⟩ : Mat) ⟨2, 1, [[1/3], [2/3]]⟩
      = ⟨2, 1, [[1/3], [2/3]]⟩ := by
    norm_num [rescaleCols, Mat.colMax, Mat.ofFn, Mat.get, List.range_succ, Mat.mk.injEq,
      List.foldl_cons, List.foldl_nil, max_def, min_def]
  have hkey : (lookupM c4Adata.obsp "ACTIONet").isSome = true := rfl
  have hok : impute_genes_using_ACTIONet c4Diff c4Adata ["g1"] (85/100) 0 5 = .ok c4Out := by
    rw [impute_genes_using_ACTIONet, if_neg (by rw [hkey]; exact fun h => Bool.noConfusion h),
      hU, hY, hres, mkAnnDataX, if_pos ⟨rfl, rfl⟩]
    rfl
  exact ⟨hok, c4_output_labels c4Diff c4Adata ["g1"] (85/100) 0 5 c4Out rfl hok⟩

theorem acClamped_nonneg (a : AnnData) (genes : List String) (i j : Nat) :
    0 ≤ (acClamped a genes).get i j := by
  rw [acClamped, Mat.map, Mat.get_ofFn_ite]
  split
  · split
    · exact le_refl 0
    · exact le_of_not_lt (by assumption)
  · exact le_refl 0

theorem acCs_nonneg (a : AnnData) (genes : List String) (k : Nat) :
    0 ≤ acCs a genes k := by
  rw [acCs, Mat.colSum]
  refine List.sum_nonneg ?_
  intro x hx
  obtain ⟨i, hi, rfl⟩ := List.mem_map.mp hx
  exact acClamped_nonneg a genes i k

theorem acUnorm_nonneg (a : AnnData) (genes : List String) (i k : Nat) :
    0 ≤ (acUnorm a genes).get i k := by
  rw [acUnorm, Mat.get_ofFn_ite]
  split
  · exact div_nonneg (acClamped_nonneg a genes i k) (acCs_nonneg a genes k)
  · exact le_refl 0

theorem acUfinal_nonneg (a : AnnData) (genes : List String) (i j : Nat) :
    0 ≤ (acUfinal a genes).get i j := by
  rw [acUfinal]
  by_cases hsel : 0 < (acSelIdx a genes).length
  · rw [if_pos hsel, acU1, Mat.selectCols, Mat.get_ofFn_ite]
    split
    · exact acUnorm_nonneg a genes i _
    · exact le_refl 0
  · rw [if_neg hsel, acUelse, Mat.map, Mat.get_ofFn_ite]
    split
    · rename_i h
      have hc0 : (acU0 a genes).c = 0 := Nat.eq_zero_of_not_pos hsel
      rw [hc0] at h
      exact absurd h.2 (Nat.not_lt_zero j)
    · exact le_refl 0

theorem colMax_nonneg (M : Mat) (j : Nat) (h : ∀ i, 0 ≤ M.get i j) :
    0 ≤ M.colMax j :=
  le_trans (h 0) (le_foldl_max _ _)

/-- Claim C5: on every successful `impute_genes_using_ACTIONet` call, no
returned value in a gene column exceeds the maximum of that gene's
pre-diffusion normalized input column, and a diffused column whose
maximum is exactly 0 comes back as all zeros. -/
theorem c5_rescale_bounds (d : Mat → Mat → Int → ℚ → Int → Mat) (a : AnnData)
    (genes : List String) (alpha : ℚ) (t n : Int) (out : AnnData)
    (hok : impute_genes_using_ACTIONet d a genes alpha t n = .ok out) :
    ∀ j, j < out.X.c →
      (∀ i, i < out.X.r → out.X.get i j ≤ (acUfinal a genes).colMax j) ∧
      ((acImputed d a genes t alpha n).colMax j = 0 →
        ∀ i, i < out.X.r → out.X.get i j = 0) := by
  rw [impute_genes_using_ACTIONet] at hok
  split at hok
  · exact Except.noConfusion hok
  obtain ⟨hout, -, -⟩ := mkAnnDataX_ok hok
  have hX : out.X = rescaleCols (acUfinal a genes) (acImputed d a genes t alpha n) := by
    rw [hout]
  intro j hj
  constructor
  · intro i hi
    rw [hX, rescaleCols, Mat.get_ofFn_ite]
    split
    · split
      · exact colMax_nonneg _ j (fun i2 => acUfinal_nonneg a genes i2 j)
      · exact min_le_right _ _
    · exact colMax_nonneg _ j (fun i2 => acUfinal_nonneg a genes i2 j)
  · intro hzero i hi
    rw [hX, rescaleCols, Mat.get_ofFn_ite]
    simp [hzero]

/-- Witness for `c5_rescale_bounds`: a successful concrete run, with the
bound checked at the first entry of the first gene column. -/
theorem c5_rescale_bounds_witness :
    impute_genes_using_ACTIONet c5Diff c5Adata ["g1"] (85/100) 0 5 = .ok c5Out ∧
    c5Out.X.get 0 0 ≤ (acUfinal c5Adata ["g1"]).colMax 0 := by
  have hsel : acSelIdx c5Adata ["g1"] = [0] := by
    simp [acSelIdx, acGenesI, c5Adata, List.range_succ, pdIntersection]
  have h0 : acU0 c5Adata ["g1"] = ⟨2, 1, [[1], [2]]⟩ := by
    rw [acU0, hsel]
    norm_num [Mat.selectCols, Mat.ofFn, Mat.get, List.range_succ, c5Adata, Mat.mk.injEq]
  have h1 : acClamped c5Adata ["g1"] = ⟨2, 1, [[1], [2]]⟩ := by
    rw [acClamped, h0]
    norm_num [Mat.map, Mat.ofFn, Mat.get, List.range_succ, Mat.mk.injEq]
  have h2 : acCs c5Adata ["g1"] 0 = 3 := by
    rw [acCs, h1]
    norm_num [Mat.colSum, Mat.get, List.range_succ]
  have hUn : acUnorm c5Adata ["g1"] = ⟨2, 1, [[1/3], [2/3]]⟩ := by
    rw [acUnorm, h1]
    norm_num [Mat.ofFn, Mat.get, List.range_succ, h2, Mat.mk.injEq]
  have hkeep : acKeep c5Adata ["g1"] = [0] := by
    rw [acKeep, h1]
    simp [List.range_succ, List.filter, h2]
  have hU : acUfinal c5Adata ["g1"] = ⟨2, 1, [[1/3], [2/3]]⟩ := by
    rw [acUfinal, if_pos (by rw [hsel]; exact Nat.one_pos), acU1, hkeep, hUn]
    norm_num [Mat.selectCols, Mat.ofFn, Mat.get, List.range_succ, Mat.mk.injEq]
  have hY : acImputed c5Diff c5Adata ["g1"] 0 (85/100) 5 = ⟨2, 1, [[1/3], [2/3]]⟩ := hU
  have hres : rescaleCols (⟨2, 1, [[1/3], [2/3]]⟩ : Mat) ⟨2, 1, [[1/3], [2/3]]⟩
      = ⟨2, 1, [[1/3], [2/3]]⟩ := by
    norm_num [rescaleCols, Mat.colMax, Mat.ofFn, Mat.get, List.range_succ, Mat.mk.injEq,
      List.foldl_cons, List.foldl_nil, max_def, min_def]
  have hkey : (lookupM c5Adata.obsp "ACTIONet").isSome = true := rfl
  have hok : impute_genes_using_ACTIONet c5Diff c5Adata ["g1"] (85/100) 0 5 = .ok c5Out := by
    rw [impute_genes_using_ACTIONet, if_neg (by rw [hkey]; exact fun h => Bool.noConfusion h),
      hU, hY, hres, mkAnnDataX, if_pos ⟨rfl, rfl⟩]
    rfl
  refine ⟨hok, ?_⟩
  exact (c5_rescale_bounds c5Diff c5Adata ["g1"] (85/100) 0 5 c5Out hok 0 Nat.one_pos).1
    0 Nat.zero_lt_two

/-- Claim C6: the specificity path equals the profile path with
`log1p` of the stored specificity matrix substituted for the per-gene
matrix the profile path consumes, for identical loadings — full
equality of results, error behavior included, whenever the specificity
key is stored (with one row per gene, as a per-gene matrix has) and the
substituted object carries the profile key the profile path checks. -/
theorem c6_specificity_refines_profile (log1p : ℚ → ℚ) (a : AnnData)
    (genes : List String) (ak sk pk : String) (S : Mat)
    (hS : lookupM a.varm sk = some S)
    (hdim : a.var_index.length ≤ S.r)
    (hpk : (lookupM (setVarm a (ak ++ "_profile") (Mat.map log1p S)).varm pk).isSome = true) :
    impute_specific_genes_using_archetypes log1p a genes ak sk
      = impute_genes_using_archetypes (setVarm a (ak ++ "_profile") (Mat.map log1p S))
          genes ak pk := by
  have hobm : (setVarm a (ak ++ "_profile") (Mat.map log1p S)).obsm = a.obsm := rfl
  have hobi : (setVarm a (ak ++ "_profile") (Mat.map log1p S)).obs_index = a.obs_index := rfl
  have hvi : (setVarm a (ak ++ "_profile") (Mat.map log1p S)).var_index = a.var_index := rfl
  have hlook : lookupM (setVarm a (ak ++ "_profile") (Mat.map log1p S)).varm (ak ++ "_profile")
      = some (Mat.map log1p S) := by
    simp [setVarm, lookupM]
  rw [impute_specific_genes_using_archetypes, impute_genes_using_archetypes, hobm, hobi]
  by_cases hak : (lookupM a.obsm ak).isSome = false
  · rw [if_pos hak, if_pos hak]
  · rw [if_neg hak, if_neg hak,
      if_neg (show ¬(lookupM a.varm sk).isSome = false by
        rw [hS]; exact fun h => Bool.noConfusion h),
      if_neg (show ¬(lookupM (setVarm a (ak ++ "_profile") (Mat.map log1p S)).varm pk).isSome
          = false by rw [hpk]; exact fun h => Bool.noConfusion h)]
    by_cases hall : (pdIntersection a.obs_index genes).all (fun g => a.var_index.contains g)
    · have hsubL : subsetVarm a (pdIntersection a.obs_index genes) sk
          = .ok (Mat.ofFn (pdIntersection a.obs_index genes).length S.c
              (fun i j => S.get (a.var_index.findIdx
                (fun s => s == (pdIntersection a.obs_index genes).getD i "")) j)) := by
        rw [subsetVarm, if_pos hall, hS]
      have hsubR : subsetVarm (setVarm a (ak ++ "_profile") (Mat.map log1p S))
          (pdIntersection a.obs_index genes) (ak ++ "_profile")
          = .ok (Mat.ofFn (pdIntersection a.obs_index genes).length (Mat.map log1p S).c
              (fun i j => (Mat.map log1p S).get (a.var_index.findIdx
                (fun s => s == (pdIntersection a.obs_index genes).getD i "")) j)) := by
        rw [subsetVarm, hvi, if_pos hall, hlook]
      rw [hsubL, hsubR]
      have hZ : Mat.map log1p
          (Mat.ofFn (pdIntersection a.obs_index genes).length S.c
            (fun i j => S.get (a.var_index.findIdx
              (fun s => s == (pdIntersection a.obs_index genes).getD i "")) j))
          = Mat.ofFn (pdIntersection a.obs_index genes).length (Mat.map log1p S).c
              (fun i j => (Mat.map log1p S).get (a.var_index.findIdx
                (fun s => s == (pdIntersection a.obs_index genes).getD i "")) j) := by
        rw [Mat.map]
        show Mat.ofFn (pdIntersection a.obs_index genes).length S.c _
            = Mat.ofFn (pdIntersection a.obs_index genes).length S.c _
        refine Mat.ofFn_congr _ _ _ _ (fun i hi j hj => ?_)
        have hmem : (pdIntersection a.obs_index genes).getD i "" ∈ a.var_index := by
          have hmem2 : (pdIntersection a.obs_index genes).getD i ""
              ∈ pdIntersection a.obs_index genes := by
            rw [List.getD_eq_getElem _ _ hi]
            exact List.getElem_mem hi
          have := List.all_eq_true.mp hall _ hmem2
          exact List.elem_iff.mp this
        have hidx : a.var_index.findIdx
            (fun s => s == (pdIntersection a.obs_index genes).getD i "") < S.r := by
          refine lt_of_lt_of_le ?_ hdim
          exact List.findIdx_lt_length_of_exists ⟨_, hmem, beq_self_eq_true _⟩
        rw [Mat.get_ofFn _ _ _ _ _ hi hj, Mat.map, Mat.get_ofFn _ _ _ _ _ hidx hj]
      exact congrArg (fun Z => mkAnnDataX
        ((Z.mul (((lookupM a.obsm ak).getD ⟨0, 0, []⟩).transpose)).transpose)
        a.obs_index (pdIntersection a.obs_index genes)) hZ
    · rw [show subsetVarm a (pdIntersection a.obs_index genes) sk
          = .error (.keyError "var names missing from index") by
            rw [subsetVarm, if_neg hall],
        show subsetVarm (setVarm a (ak ++ "_profile") (Mat.map log1p S))
            (pdIntersection a.obs_index genes) (ak ++ "_profile")
          = .error (.keyError "var names missing from index") by
            rw [subsetVarm, hvi, if_neg hall]]

/-- Witness for `c6_specificity_refines_profile` at a concrete input
(with the numpy primitive instantiated by a concrete function). -/
theorem c6_specificity_refines_profile_witness :
    lookupM c6Adata.varm "unified_feature_specificity" = some c6S ∧
    impute_specific_genes_using_archetypes (fun x => x) c6Adata ["g1"] "H_unified"
        "unified_feature_specificity"
      = impute_genes_using_archetypes
          (setVarm c6Adata ("H_unified" ++ "_profile") (Mat.map (fun x => x) c6S))
          ["g1"] "H_unified" "H_unified_profile" :=
  ⟨rfl, c6_specificity_refines_profile (fun x => x) c6Adata ["g1"] "H_unified"
    "unified_feature_specificity" "H_unified_profile" c6S rfl (le_refl 1) rfl⟩

/-- Claim C7: each of the three operations, called on an AnnData lacking
its required keyed sub-matrix (loading key, profile key, specificity
key, or the fixed `ACTIONet` graph key), returns the configuration
`ValueError` immediately — no output AnnData is constructed — and the
error message embeds the missing key by name. -/
theorem c7_missing_key_errors (a b : AnnData) (genes genes2 : List String)
    (ak pk sk : String) (d : Mat → Mat → Int → ℚ → Int → Mat)
    (alpha : ℚ) (t n : Int) (log1p : ℚ → ℚ)
    (h1 : lookupM a.obsm ak = none)
    (h2 : (lookupM b.obsm ak).isSome = true)
    (h3 : lookupM b.varm pk = none)
    (h4 : lookupM b.varm sk = none)
    (h5 : lookupM a.obsp "ACTIONet" = none) :
    (impute_genes_using_archetypes a genes ak pk
        = .error (.valueError (obsmErrMsg ak))) ∧
    (impute_specific_genes_using_archetypes log1p a genes ak sk
        = .error (.valueError (obsmErrMsg ak))) ∧
    (impute_genes_using_archetypes b genes2 ak pk
        = .error (.valueError (varmErrMsg pk))) ∧
    (impute_specific_genes_using_archetypes log1p b genes2 ak sk
        = .error (.valueError (varmErrMsg sk))) ∧
    (impute_genes_using_ACTIONet d a genes alpha t n
        = .error (.valueError acNetErrMsg)) ∧
    (∃ p q, obsmErrMsg ak = p ++ (ak ++ q)) ∧
    (∃ p q, varmErrMsg pk = p ++ (pk ++ q)) ∧
    (∃ p q, acNetErrMsg = p ++ ("ACTIONet" ++ q)) := by
  have ha : (lookupM a.obsm ak).isSome = false := by rw [h1]; rfl
  refine ⟨?_, ?_, ?_, ?_, ?_, ?_, ?_, ?_⟩
  · rw [impute_genes_using_archetypes, if_pos ha]
  · rw [impute_specific_genes_using_archetypes, if_pos ha]
  · rw [impute_genes_using_archetypes,
      if_neg (by rw [h2]; exact fun h => Bool.noConfusion h),
      if_pos (by rw [h3]; rfl)]
  · rw [impute_specific_genes_using_archetypes,
      if_neg (by rw [h2]; exact fun h => Bool.noConfusion h),
      if_pos (by rw [h4]; rfl)]
  · rw [impute_genes_using_ACTIONet, if_pos (by rw [h5]; rfl)]
  · exact ⟨"Did not find adata.obsm[", "].", rfl⟩
  · exact ⟨"Did not find adata.varm[",
      "]. Please run pp.compute_archetype_feature_specificity() first.", rfl⟩
  · exact ⟨"Did not find adata.obsp[", "]. Please run nt.build_ACTIONet() first.", rfl⟩

/-- Witness for `c7_missing_key_errors` on concrete inputs lacking the
respective keys. -/
theorem c7_missing_key_errors_witness :
    (impute_genes_using_archetypes c7AdataA ["g1"] "H_unified" "unified_feature_profile"
        = .error (.valueError (obsmErrMsg "H_unified"))) ∧
    (impute_specific_genes_using_archetypes (fun x => x) c7AdataA ["g1"] "H_unified"
        "unified_feature_specificity"
        = .error (.valueError (obsmErrMsg "H_unified"))) ∧
    (impute_genes_using_archetypes c7AdataB ["g1"] "H_unified" "unified_feature_profile"
        = .error (.valueError (varmErrMsg "unified_feature_profile"))) ∧
    (impute_specific_genes_using_archetypes (fun x => x) c7AdataB ["g1"] "H_unified"
        "unified_feature_specificity"
        = .error (.valueError (varmErrMsg "unified_feature_specificity"))) ∧
    (impute_genes_using_ACTIONet (fun _ U _ _ _ => U) c7AdataA ["g1"] (85/100) 0 5
        = .error (.valueError acNetErrMsg)) := by
  have h := c7_missing_key_errors c7AdataA c7AdataB ["g1"] ["g1"] "H_unified"
    "unified_feature_profile" "unified_feature_specificity" (fun _ U _ _ _ => U)
    (85/100) 0 5 (fun x => x) rfl rfl rfl rfl rfl
  exact ⟨h.1, h.2.1, h.2.2.1, h.2.2.2.1, h.2.2.2.2.1⟩

/-- Claim C8: in the diffusion path, negative raw values in the selected
columns are replaced by zero before the per-column normalization: the
divisor is the column sum of the clamped (non-negative) matrix, each
normalized entry is the clamped entry over that sum, a negative raw
entry normalizes to exactly zero, and every normalized entry is
non-negative. -/
theorem c8_clamp_before_normalize (a : AnnData) (genes : List String) (i j : Nat)
    (hi : i < (acU0 a genes).r) (hj : j < (acU0 a genes).c) :
    acCs a genes j
      = ((List.range (acU0 a genes).r).map
          (fun i2 => max 0 ((acU0 a genes).get i2 j))).sum ∧
    (acUnorm a genes).get i j
      = max 0 ((acU0 a genes).get i j) / acCs a genes j ∧
    ((acU0 a genes).get i j < 0 → (acUnorm a genes).get i j = 0) ∧
    0 ≤ (acUnorm a genes).get i j := by
  have hmax : ∀ x : ℚ, (if x < 0 then 0 else x) = max 0 x := by
    intro x
    rcases lt_or_le x 0 with h | h
    · rw [if_pos h]
      exact (max_eq_left (le_of_lt h)).symm
    · rw [if_neg (not_lt.mpr h)]
      exact (max_eq_right h).symm
  have hclamp : ∀ i2, i2 < (acU0 a genes).r →
      (acClamped a genes).get i2 j = max 0 ((acU0 a genes).get i2 j) := by
    intro i2 hi2
    rw [acClamped, Mat.map, Mat.get_ofFn _ _ _ _ _ hi2 hj]
    exact hmax _
  have hcs : acCs a genes j
      = ((List.range (acU0 a genes).r).map
          (fun i2 => max 0 ((acU0 a genes).get i2 j))).sum := by
    rw [acCs, Mat.colSum, show (acClamped a genes).r = (acU0 a genes).r from rfl]
    refine congrArg List.sum (List.map_congr_left (fun i2 hi2 => ?_))
    exact hclamp i2 (List.mem_range.mp hi2)
  have hun : (acUnorm a genes).get i j
      = max 0 ((acU0 a genes).get i j) / acCs a genes j := by
    rw [acUnorm, Mat.get_ofFn _ _ _ _ _ (show i < (acClamped a genes).r from hi)
      (show j < (acClamped a genes).c from hj), hclamp i hi]
  refine ⟨hcs, hun, ?_, acUnorm_nonneg a genes i j⟩
  intro hneg
  rw [hun, max_eq_left (le_of_lt hneg), zero_div]

/-- Witness for `c8_clamp_before_normalize`: on `c8Adata` the raw entry
at cell 0 is negative and its normalized value is zero. -/
theorem c8_clamp_before_normalize_witness :
    (acU0 c8Adata ["g1"]).get 0 0 < 0 ∧
    (acUnorm c8Adata ["g1"]).get 0 0 = 0 ∧
    0 ≤ (acUnorm c8Adata ["g1"]).get 0 0 := by
  have h := c8_clamp_before_normalize c8Adata ["g1"] 0 0 (by decide) (by decide)
  have hneg : (acU0 c8Adata ["g1"]).get 0 0 < 0 := by decide
  exact ⟨hneg, h.2.2.1 hneg, h.2.2.2⟩

theorem Store.next_write (s : Store) (j : Nat) (M : Mat) : (s.write j M).next = s.next := rfl

theorem Store.next_alloc (s : Store) (M : Mat) : (s.alloc M).2.next = s.next + 1 := rfl

theorem Store.fst_alloc (s : Store) (M : Mat) : (s.alloc M).1 = s.next := rfl

theorem Store.get_write_ne (s : Store) (j : Nat) (M : Mat) (i : Nat) (h : i ≠ j) :
    (s.write j M).get i = s.get i := by
  have hfind : List.find? (fun p => p.1 == i) ((j, M) :: s.mem)
      = List.find? (fun p => p.1 == i) s.mem :=
    List.find?_cons_of_neg _ (fun hc => h ((eq_of_beq hc).symm))
  rw [Store.write, Store.get, Store.get]
  dsimp only
  rw [hfind]

theorem Store.get_alloc_lt (s : Store) (M : Mat) (i : Nat) (h : i < s.next) :
    (s.alloc M).2.get i = s.get i := by
  have hfind : List.find? (fun p => p.1 == i) ((s.next, M) :: s.mem)
      = List.find? (fun p => p.1 == i) s.mem :=
    List.find?_cons_of_neg _ (fun hc => absurd (eq_of_beq hc) (ne_of_gt h))
  rw [Store.alloc, Store.get, Store.get]
  dsimp only
  rw [hfind]

/-- Claim C9: none of the three operations mutates the caller's AnnData.
In the store model (where each numpy array has an identity and in-place
updates are writes), every array the input AnnData references holds the
same value after any of the three calls: the clamp, the NaN replacement
and the column writes all target freshly allocated copies. -/
theorem c9_no_input_mutation (s : Store) (a : AnnDataRef) (genes g2 g3 : List String)
    (ak pk sk : String) (log1p : ℚ → ℚ) (d : Mat → Mat → Int → ℚ → Int → Mat)
    (alpha : ℚ) (t n : Int) (i : Nat)
    (hid : i ∈ a.ids) (hfresh : ∀ x ∈ a.ids, x < s.next) :
    ((impute_genes_using_archetypes_ref a genes ak pk s).2.get i = s.get i) ∧
    ((impute_specific_genes_using_archetypes_ref log1p a g2 ak sk s).2.get i = s.get i) ∧
    ((impute_genes_using_ACTIONet_ref d a g3 alpha t n s).2.get i = s.get i) := by
  have hi : i < s.next := hfresh i hid
  refine ⟨rfl, rfl, ?_⟩
  dsimp only [impute_genes_using_ACTIONet_ref]
  split
  · rfl
  · by_cases hb : 0 < (acSelIdx (derefAnnData s a) g3).length
    · rw [if_pos hb]
      rw [Store.get_write_ne, Store.get_alloc_lt, Store.get_write_ne, Store.get_alloc_lt,
        Store.get_alloc_lt, Store.get_write_ne, Store.get_alloc_lt]
      all_goals try simp only [Store.next_write, Store.next_alloc, Store.fst_alloc]
      all_goals omega
    · rw [if_neg hb]
      rw [Store.get_write_ne, Store.get_alloc_lt, Store.get_write_ne, Store.get_alloc_lt,
        Store.get_alloc_lt, Store.get_alloc_lt]
      all_goals try simp only [Store.next_write, Store.next_alloc, Store.fst_alloc]
      all_goals omega

/-- Witness for `c9_no_input_mutation` at a concrete store and AnnData
reference. -/
theorem c9_no_input_mutation_witness :
    ((impute_genes_using_archetypes_ref c9Ref ["g1"] "H_unified"
        "unified_feature_profile" c9Store).2.get 0 = c9Store.get 0) ∧
    ((impute_specific_genes_using_archetypes_ref (fun x => x) c9Ref ["g1"] "H_unified"
        "unified_feature_specificity" c9Store).2.get 0 = c9Store.get 0) ∧
    ((impute_genes_using_ACTIONet_ref (fun _ U _ _ _ => U) c9Ref ["g1"] (85/100) 0 5
        c9Store).2.get 0 = c9Store.get 0) :=
  c9_no_input_mutation c9Store c9Ref ["g1"] ["g1"] ["g1"] "H_unified"
    "unified_feature_profile" "unified_feature_specificity" (fun x => x)
    (fun _ U _ _ _ => U) (85/100) 0 5 0 (by decide) (by decide)

/-- Claim C10: `impute_genes_using_ACTIONet` validates none of its
numeric parameters.  For all `alpha`, `n_threads`, `n_iters` (including
`alpha` outside the documented `(0,1)` range), the only check performed
before the external diffusion primitive is invoked is the presence of
the `ACTIONet` graph key — the missing-key error arises identically for
every parameter value — and the numeric parameters influence the result
only through the diffusion primitive call itself. -/
theorem c10_no_numeric_validation (d : Mat → Mat → Int → ℚ → Int → Mat)
    (a : AnnData) (genes : List String) (alpha alpha2 : ℚ) (t t2 n n2 : Int) :
    ((lookupM a.obsp "ACTIONet").isSome = false →
      impute_genes_using_ACTIONet d a genes alpha t n
        = .error (.valueError acNetErrMsg)) ∧
    (d (acGraph a) (acUfinal a genes) t alpha n
        = d (acGraph a) (acUfinal a genes) t2 alpha2 n2 →
      impute_genes_using_ACTIONet d a genes alpha t n
        = impute_genes_using_ACTIONet d a genes alpha2 t2 n2) := by
  constructor
  · intro h
    rw [impute_genes_using_ACTIONet, if_pos h]
  · intro hd
    rw [impute_genes_using_ACTIONet, impute_genes_using_ACTIONet]
    by_cases hkey : (lookupM a.obsp "ACTIONet").isSome = false
    · rw [if_pos hkey, if_pos hkey]
    · rw [if_neg hkey, if_neg hkey, acImputed, acImputed, nanToNum, nanToNum, hd]

/-- Witness for `c10_no_numeric_validation`: with `alpha = 2` (outside
the documented range) and a negative thread count, the missing-key input
still produces exactly the missing-key error, and on a complete input the
result agrees with the one for in-range parameters when the primitive
does not distinguish them. -/
theorem c10_no_numeric_validation_witness :
    (impute_genes_using_ACTIONet c10Diff c10AdataA ["g1"] 2 (-1) 0
        = .error (.valueError acNetErrMsg)) ∧
    (impute_genes_using_ACTIONet c10Diff c10AdataB ["g1"] 2 (-1) 0
        = impute_genes_using_ACTIONet c10Diff c10AdataB ["g1"] (1/2) 4 7) :=
  ⟨(c10_no_numeric_validation c10Diff c10AdataA ["g1"] 2 2 (-1) (-1) 0 0).1 rfl,
   (c10_no_numeric_validation c10Diff c10AdataB ["g1"] 2 (1/2) (-1) 4 0 7).2 rfl⟩
